import Mathlib

/-!
Shallow embedding of the oneshot channel in src/liten/src/sync/oneshot.rs.

The channel state is a bitmask of four independent flags (bitflags over u8 in
the source); we model it as a record of four Booleans with `insert` and
`contains` mirroring the bitflags operations.  The waker slot and the value
slot are `MaybeUninit` storage in the source; we model each as an `Option`
(`none` = uninitialised).  Reading a slot without its guarding flag is
undefined behaviour in the source; the model simply returns the `Option`
content, and theorems that depend on the slot content carry the occupancy
hypothesis that the source SAFETY comments assume.

Each operation is a pure function from the channel to (result, new channel,
trace), where the trace records the externally observable steps in execution
order: flag insertions into the atomic state word, waker invocations, and slot
writes.  In Rust, `Sender::send(self, value)` takes the sender by value and
the code has no `mem::forget`, so when the call returns the Sender destructor
(the `Drop` impl at lines 44-62) also runs: `Sender.send` below models the
function body alone (lines 176-197), `Sender.drop` models the destructor, and
`Sender.sendCall` models the complete observable effect of a `send` call,
body followed by destructor.
-/

namespace Oneshot

/-- The four flags of the `ChannelState` bitflags in the source
(RECEIVER_DROPPED, SENDER_DROPPED, SENDER_SENT, WAKER_REGISTERED). -/
inductive Flag where
  | receiverDropped
  | senderDropped
  | senderSent
  | wakerRegistered
deriving DecidableEq

/-- The atomic state word: a bitmask of four independent flags. -/
structure ChannelState where
  receiverDropped : Bool
  senderDropped : Bool
  senderSent : Bool
  wakerRegistered : Bool
deriving DecidableEq

/-- `ChannelState::INITIALISED`: no flag set. -/
def ChannelState.INITIALISED : ChannelState :=
  ⟨false, false, false, false⟩

/-- `state.contains(f)` of the bitflags type. -/
def ChannelState.contains (s : ChannelState) (f : Flag) : Bool :=
  match f with
  | .receiverDropped => s.receiverDropped
  | .senderDropped => s.senderDropped
  | .senderSent => s.senderSent
  | .wakerRegistered => s.wakerRegistered

/-- `state.insert(f)` of the bitflags type: sets the flag, clears nothing. -/
def ChannelState.insert (s : ChannelState) (f : Flag) : ChannelState :=
  match f with
  | .receiverDropped => { s with receiverDropped := true }
  | .senderDropped => { s with senderDropped := true }
  | .senderSent => { s with senderSent := true }
  | .wakerRegistered => { s with wakerRegistered := true }

/-- `a.flagsLe b`: every flag set in `a` is set in `b` (flag-set inclusion). -/
def ChannelState.flagsLe (a b : ChannelState) : Bool :=
  (!a.receiverDropped || b.receiverDropped) &&
  (!a.senderDropped || b.senderDropped) &&
  (!a.senderSent || b.senderSent) &&
  (!a.wakerRegistered || b.wakerRegistered)

/-- A resumption callback (a `Waker` clone in the source), identified by an
opaque id; the model only tracks which stored callback is invoked. -/
abbrev Waker := Nat

/-- The shared `Channel<V>` block: the atomic state word plus the two
`UnsafeCell<MaybeUninit<_>>` slots, each modelled as an `Option`
(`none` = uninitialised). -/
structure Channel (V : Type) where
  state : ChannelState
  waker : Option Waker
  value : Option V
deriving DecidableEq

variable {V : Type}

/-- `Channel::new`: INITIALISED state, both slots uninitialised. -/
def Channel.new : Channel V :=
  ⟨ChannelState.INITIALISED, none, none⟩

/-- `Channel::write_waker`: unsynchronised write into the waker slot
(overwrites any previous content, as `MaybeUninit::write` does). -/
def Channel.write_waker (ch : Channel V) (w : Waker) : Channel V :=
  { ch with waker := some w }

/-- `Channel::write_value`: unsynchronised write into the value slot
(overwrites any previous content, as `MaybeUninit::write` does). -/
def Channel.write_value (ch : Channel V) (v : V) : Channel V :=
  { ch with value := some v }

/-- `Channel::read_value_unchecked`: reads the value slot without checking
any flag.  The source assumes the slot is initialised; the model returns the
slot content, `none` standing for the undefined read of an uninitialised
slot. -/
def Channel.read_value_unchecked (ch : Channel V) : Option V :=
  ch.value

/-- `ReceiverDroppedError`: payload-free terminal error of `send`. -/
inductive ReceiverDroppedError where
  | mk
deriving DecidableEq

/-- `SenderDroppedError`: payload-free terminal error of `try_recv`/poll. -/
inductive SenderDroppedError where
  | mk
deriving DecidableEq

/-- Rust `Result<A, E>`. -/
inductive Result (A E : Type) where
  | ok (a : A)
  | err (e : E)
deriving DecidableEq

/-- Rust `Poll<A>`. -/
inductive Poll (A : Type) where
  | ready (a : A)
  | pending
deriving DecidableEq

/-- Observable steps of an operation, in execution order: a flag inserted
into the atomic state word, an invocation of the stored resumption callback
(`wake_by_ref`, carrying the waker slot content at that moment), a write
into the waker slot, a write into the value slot. -/
inductive Event (V : Type) where
  | insertFlag (f : Flag)
  | wake (w : Option Waker)
  | writeWaker (w : Waker)
  | writeValue (v : V)
deriving DecidableEq

/-- The body of `Sender::send` (oneshot.rs lines 176-197): load the state;
if RECEIVER_DROPPED is set fail with `ReceiverDroppedError` and change
nothing; otherwise invoke the stored waker if WAKER_REGISTERED is set, then
insert SENDER_SENT, then write the value into the slot.  The destructor of
the consumed sender is `Sender.drop`; the complete call is
`Sender.sendCall`. -/
def Sender.send (ch : Channel V) (value : V) :
    Result Unit ReceiverDroppedError × Channel V × List (Event V) :=
  let state := ch.state
  if state.contains .receiverDropped then
    (.err .mk, ch, [])
  else
    let t0 : List (Event V) :=
      if state.contains .wakerRegistered then [.wake ch.waker] else []
    let ch1 : Channel V := { ch with state := ch.state.insert .senderSent }
    let ch2 := ch1.write_value value
    (.ok (), ch2, t0 ++ [.insertFlag .senderSent, .writeValue value])

/-- The `Drop` impl for `Sender` (oneshot.rs lines 44-62): fetch-update
inserting SENDER_DROPPED (the update returns the previous state), then, if
the previous state contained WAKER_REGISTERED, invoke the stored waker. -/
def Sender.drop (ch : Channel V) : Channel V × List (Event V) :=
  let old := ch.state
  let ch1 : Channel V := { ch with state := old.insert .senderDropped }
  if old.contains .wakerRegistered then
    (ch1, [.insertFlag .senderDropped, .wake ch1.waker])
  else
    (ch1, [.insertFlag .senderDropped])

/-- The complete observable effect of calling `sender.send(value)`: the
function body, then the destructor of the consumed sender (Rust drops `self`
when `send` returns, on the success path and on the error path alike). -/
def Sender.sendCall (ch : Channel V) (value : V) :
    Result Unit ReceiverDroppedError × Channel V × List (Event V) :=
  let s := Sender.send ch value
  let d := Sender.drop s.2.1
  (s.1, d.1, s.2.2 ++ d.2)

/-- The `Drop` impl for `Receiver` (oneshot.rs lines 34-42): fetch-update
inserting RECEIVER_DROPPED; no wake. -/
def Receiver.drop (ch : Channel V) : Channel V × List (Event V) :=
  ({ ch with state := ch.state.insert .receiverDropped },
   [.insertFlag .receiverDropped])

/-- `Receiver::try_get_sender` (oneshot.rs lines 201-208): fails with
`Err(())` unless SENDER_DROPPED is set; on success returns a new Sender
handle into the same channel (modelled as `ok ()`), changing nothing. -/
def Receiver.try_get_sender (ch : Channel V) :
    Result Unit Unit × Channel V :=
  if !ch.state.contains .senderDropped then
    (.err (), ch)
  else
    (.ok (), ch)

/-- `Receiver::try_recv` (oneshot.rs lines 209-223): if SENDER_SENT is set,
return the slot content via the unchecked read; else if SENDER_DROPPED is
set, fail with `SenderDroppedError`; else return `Ok(None)`.  The state and
the slots are not modified. -/
def Receiver.try_recv (ch : Channel V) :
    Result (Option V) SenderDroppedError × Channel V :=
  let state := ch.state
  if state.contains .senderSent then
    (.ok ch.read_value_unchecked, ch)
  else if state.contains .senderDropped then
    (.err .mk, ch)
  else
    (.ok none, ch)

/-- `impl Future for Receiver`, `poll` (oneshot.rs lines 226-246): call
`try_recv`; on a value or an error return Ready; on `Ok(None)` write the
caller-supplied waker into the slot, then insert WAKER_REGISTERED, then
return Pending. -/
def Receiver.poll (ch : Channel V) (w : Waker) :
    Poll (Result V SenderDroppedError) × Channel V × List (Event V) :=
  match Receiver.try_recv ch with
  | (.ok (some v), ch1) => (.ready (.ok v), ch1, [])
  | (.ok none, ch1) =>
      let ch2 := ch1.write_waker w
      let ch3 : Channel V := { ch2 with state := ch2.state.insert .wakerRegistered }
      (.pending, ch3, [.writeWaker w, .insertFlag .wakerRegistered])
  | (.err e, ch1) => (.ready (.err e), ch1, [])

/-! ### Concrete channels used in closed statements -/

/-- A fresh `Channel<Nat>` polled once to Pending with waker id 5:
WAKER_REGISTERED is set and the waker slot holds 5. -/
def pendingChannel : Channel Nat :=
  (Receiver.poll Channel.new 5).2.1

/-- A fresh `Channel<Nat>` whose Receiver has been dropped. -/
def receiverDroppedChannel : Channel Nat :=
  (Receiver.drop Channel.new).1

/-- A fresh `Channel<Nat>` whose Sender has been dropped without sending. -/
def senderDroppedChannel : Channel Nat :=
  (Sender.drop Channel.new).1

/-- A fresh `Channel<Nat>` after a complete `send(42)` call: SENDER_SENT and
SENDER_DROPPED are set and the value slot holds 42. -/
def sentChannel : Channel Nat :=
  (Sender.sendCall Channel.new 42).2.1

/-! ### Claims -/

/-- C1: the claim states that `Sender::send` writes the payload into the
value slot strictly before inserting SENDER_SENT into the state word.  The
code does the opposite: the trace of the send body on a fresh channel is
[insert SENDER_SENT, write value], the flag is published strictly before the
slot is written.  This contradicts the SAFETY comment in `try_recv`
(oneshot.rs line 213: SENDER_SENT guarantees the value slot is initialised),
which only holds if the write precedes the publish. -/
theorem send_inserts_sent_before_writing_value :
    (Sender.send (Channel.new (V := Nat)) 7).2.2 =
      [Event.insertFlag Flag.senderSent, Event.writeValue 7] ∧
    (Sender.send (Channel.new (V := Nat)) 7).2.2 ≠
      [Event.writeValue 7, Event.insertFlag Flag.senderSent] := by
  constructor
  · rfl
  · decide

/-- C5: the claim states single delivery (a second `try_recv` after a
successful receive does not deliver the value again).  The code never marks
the value consumed: on the channel after `send(42)`, `try_recv` returns
`Ok(Some 42)` and a second `try_recv` on the resulting channel returns
`Ok(Some 42)` again. -/
theorem try_recv_delivers_twice :
    (Receiver.try_recv sentChannel).1 = .ok (some 42) ∧
    (Receiver.try_recv (Receiver.try_recv sentChannel).2).1 = .ok (some 42) := by
  decide

/-- C8 counterexample: the claim states that after the original Sender drops,
`try_get_sender` succeeds exactly once.  In the code it succeeds and changes
nothing, so a second call on the resulting channel succeeds as well. -/
theorem try_get_sender_succeeds_twice :
    (Receiver.try_get_sender senderDroppedChannel).1 = .ok () ∧
    (Receiver.try_get_sender
      (Receiver.try_get_sender senderDroppedChannel).2).1 = .ok () := by
  decide

/-- C4 counterexample: the claim states that on the success path a `send`
call performs exactly wake-if-registered, insert SENDER_SENT, write value.
A `send` call on a fresh channel (no waker registered) performs more: the
destructor of the consumed sender also inserts SENDER_DROPPED, so the trace
is not the claimed two-step list. -/
theorem send_call_performs_extra_steps :
    (Sender.sendCall (Channel.new (V := Nat)) 0).1 = .ok () ∧
    (Sender.sendCall (Channel.new (V := Nat)) 0).2.2 ≠
      [Event.insertFlag Flag.senderSent, Event.writeValue 0] := by
  decide

/-- C6 counterexample: the claim states that when RECEIVER_DROPPED is set,
the state word is left unchanged by the `send` call.  The call returns the
claimed error, but the destructor of the consumed sender still inserts
SENDER_DROPPED, so the state word after the call differs from the one
before. -/
theorem send_error_call_changes_state :
    (Sender.sendCall receiverDroppedChannel 5).1 = .err .mk ∧
    (Sender.sendCall receiverDroppedChannel 5).2.1.state ≠
      receiverDroppedChannel.state := by
  decide

/-- C2: if WAKER_REGISTERED is set (the Receiver polled to Pending) and the
Sender then calls `send` or is destroyed, the stored resumption callback is
invoked at least once: the wake event appears in the trace of the complete
`send` call (on the error path the destructor of the consumed sender wakes;
on the success path the body wakes, and the destructor again), and in the
trace of the destructor alone. -/
theorem waker_invoked_on_send_or_drop (ch : Channel V) (v : V)
    (h : ch.state.wakerRegistered = true) :
    Event.wake ch.waker ∈ (Sender.sendCall ch v).2.2 ∧
    Event.wake ch.waker ∈ (Sender.drop ch).2 := by
  obtain ⟨⟨rd, sd, ss, wr⟩, wk, vl⟩ := ch
  simp only at h
  subst h
  cases rd <;>
    simp [Sender.sendCall, Sender.send, Sender.drop, ChannelState.contains,
          ChannelState.insert, Channel.write_value]

/-- Witness for C2 at a concrete channel: a fresh channel polled to Pending
with waker id 5, then sent 3 into, or dropped. -/
theorem waker_invoked_on_send_or_drop_witness :
    pendingChannel.state.wakerRegistered = true ∧
    (Event.wake pendingChannel.waker ∈ (Sender.sendCall pendingChannel 3).2.2 ∧
     Event.wake pendingChannel.waker ∈ (Sender.drop pendingChannel).2) :=
  ⟨by decide, waker_invoked_on_send_or_drop pendingChannel 3 (by decide)⟩

/-- C3: for every channel whose value slot holds `v` whenever SENDER_SENT is
set (the occupancy the source SAFETY comment assumes), `try_recv` returns
`Ok(Some v)` when SENDER_SENT is set — even when SENDER_DROPPED is also set,
sent takes precedence — otherwise `Err(SenderDroppedError)` when
SENDER_DROPPED is set, and otherwise `Ok(None)`; the channel is unchanged. -/
theorem try_recv_state_cases (ch : Channel V) (v : V)
    (hv : ch.state.senderSent = true → ch.value = some v) :
    (Receiver.try_recv ch).1 =
      (if ch.state.senderSent then Result.ok (some v)
       else if ch.state.senderDropped then Result.err SenderDroppedError.mk
       else Result.ok none) ∧
    (Receiver.try_recv ch).2 = ch := by
  obtain ⟨⟨rd, sd, ss, wr⟩, wk, vl⟩ := ch
  cases ss
  · cases sd <;>
      simp [Receiver.try_recv, ChannelState.contains, Channel.read_value_unchecked]
  · have hvl : vl = some v := hv rfl
    subst hvl
    simp [Receiver.try_recv, ChannelState.contains, Channel.read_value_unchecked]

/-- Witness for C3 at a concrete channel with both SENDER_SENT and
SENDER_DROPPED set: the value 42 is still returned. -/
theorem try_recv_state_cases_witness :
    (sentChannel.state.senderSent = true → sentChannel.value = some 42) ∧
    ((Receiver.try_recv sentChannel).1 =
      (if sentChannel.state.senderSent then Result.ok (some 42)
       else if sentChannel.state.senderDropped then Result.err SenderDroppedError.mk
       else Result.ok none) ∧
     (Receiver.try_recv sentChannel).2 = sentChannel) :=
  ⟨by decide, try_recv_state_cases sentChannel 42 (by decide)⟩

/-- C4 amended: when RECEIVER_DROPPED is not set, the `send` call returns
`Ok(())` and its trace is: the wake if WAKER_REGISTERED is set, then insert
SENDER_SENT, then write the value — followed by the steps of the destructor
of the consumed sender: insert SENDER_DROPPED and, if WAKER_REGISTERED is
set, a second wake. -/
theorem send_call_success_steps (ch : Channel V) (v : V)
    (h : ch.state.receiverDropped = false) :
    (Sender.sendCall ch v).1 = .ok () ∧
    (Sender.sendCall ch v).2.2 =
      (if ch.state.wakerRegistered then [Event.wake ch.waker] else []) ++
      [Event.insertFlag Flag.senderSent, Event.writeValue v,
       Event.insertFlag Flag.senderDropped] ++
      (if ch.state.wakerRegistered then [Event.wake ch.waker] else []) := by
  obtain ⟨⟨rd, sd, ss, wr⟩, wk, vl⟩ := ch
  simp only at h
  subst h
  cases wr <;>
    simp [Sender.sendCall, Sender.send, Sender.drop, ChannelState.contains,
          ChannelState.insert, Channel.write_value]

/-- Witness for C4 at a concrete channel with a registered waker. -/
theorem send_call_success_steps_witness :
    pendingChannel.state.receiverDropped = false ∧
    ((Sender.sendCall pendingChannel 9).1 = .ok () ∧
     (Sender.sendCall pendingChannel 9).2.2 =
       (if pendingChannel.state.wakerRegistered
        then [Event.wake pendingChannel.waker] else []) ++
       [Event.insertFlag Flag.senderSent, Event.writeValue 9,
        Event.insertFlag Flag.senderDropped] ++
       (if pendingChannel.state.wakerRegistered
        then [Event.wake pendingChannel.waker] else [])) :=
  ⟨by decide, send_call_success_steps pendingChannel 9 (by decide)⟩

/-- C6 amended: when RECEIVER_DROPPED is set, the `send` body returns
`Err(ReceiverDroppedError)` without storing the value, with no events and
with the channel unchanged; the complete call still ends with the destructor
of the consumed sender, so the state word after the call gains exactly
SENDER_DROPPED while the value slot is still not written. -/
theorem send_error_path_spec (ch : Channel V) (v : V)
    (h : ch.state.receiverDropped = true) :
    Sender.send ch v = (.err .mk, ch, []) ∧
    (Sender.sendCall ch v).1 = .err .mk ∧
    (Sender.sendCall ch v).2.1.value = ch.value ∧
    (Sender.sendCall ch v).2.1.state = ch.state.insert .senderDropped := by
  obtain ⟨⟨rd, sd, ss, wr⟩, wk, vl⟩ := ch
  simp only at h
  subst h
  cases wr <;>
    simp [Sender.sendCall, Sender.send, Sender.drop, ChannelState.contains,
          ChannelState.insert]

/-- Witness for C6 at a concrete channel whose Receiver was dropped. -/
theorem send_error_path_spec_witness :
    receiverDroppedChannel.state.receiverDropped = true ∧
    (Sender.send receiverDroppedChannel 5 = (.err .mk, receiverDroppedChannel, []) ∧
     (Sender.sendCall receiverDroppedChannel 5).1 = .err .mk ∧
     (Sender.sendCall receiverDroppedChannel 5).2.1.value = receiverDroppedChannel.value ∧
     (Sender.sendCall receiverDroppedChannel 5).2.1.state =
       receiverDroppedChannel.state.insert .senderDropped) :=
  ⟨by decide, send_error_path_spec receiverDroppedChannel 5 (by decide)⟩

/-- C7: poll is `try_recv` followed by: Ready(Ok v) on a value, Ready(Err e)
on an error, and otherwise — writing the caller-supplied waker into the
slot (overwriting any previous registrant) strictly before inserting
WAKER_REGISTERED, as the trace order shows — Pending. -/
theorem poll_spec (ch : Channel V) (w : Waker) :
    Receiver.poll ch w =
      match (Receiver.try_recv ch).1 with
      | .ok (some v) => (.ready (.ok v), ch, ([] : List (Event V)))
      | .ok none =>
          (.pending,
           { ch with waker := some w, state := ch.state.insert .wakerRegistered },
           [.writeWaker w, .insertFlag .wakerRegistered])
      | .err e => (.ready (.err e), ch, []) := by
  obtain ⟨⟨rd, sd, ss, wr⟩, wk, vl⟩ := ch
  cases ss <;> cases sd <;> cases vl <;>
    simp [Receiver.poll, Receiver.try_recv, ChannelState.contains,
          ChannelState.insert, Channel.write_waker, Channel.read_value_unchecked]

/-- C8 amended: `try_get_sender` succeeds exactly when SENDER_DROPPED is set
and changes nothing — so after the original Sender drops it succeeds on
every call, not exactly once. -/
theorem try_get_sender_iff_sender_dropped (ch : Channel V) :
    ((Receiver.try_get_sender ch).1 = .ok () ↔ ch.state.senderDropped = true) ∧
    (Receiver.try_get_sender ch).2 = ch := by
  obtain ⟨⟨rd, sd, ss, wr⟩, wk, vl⟩ := ch
  cases sd <;> simp [Receiver.try_get_sender, ChannelState.contains]

/-- C9: every operation — the send body, the complete send call, try_recv,
poll, the Sender destructor, the Receiver destructor — only inserts flags
into the state word: the flags set afterwards include all flags set
before. -/
theorem flags_monotonic (ch : Channel V) (v : V) (w : Waker) :
    ChannelState.flagsLe ch.state (Sender.send ch v).2.1.state = true ∧
    ChannelState.flagsLe ch.state (Sender.sendCall ch v).2.1.state = true ∧
    ChannelState.flagsLe ch.state (Receiver.try_recv ch).2.state = true ∧
    ChannelState.flagsLe ch.state (Receiver.poll ch w).2.1.state = true ∧
    ChannelState.flagsLe ch.state (Sender.drop ch).1.state = true ∧
    ChannelState.flagsLe ch.state (Receiver.drop ch).1.state = true := by
  obtain ⟨⟨rd, sd, ss, wr⟩, wk, vl⟩ := ch
  cases rd <;> cases sd <;> cases ss <;> cases wr <;> cases vl <;>
    simp [Sender.send, Sender.sendCall, Sender.drop, Receiver.try_recv,
          Receiver.poll, Receiver.drop, ChannelState.contains,
          ChannelState.insert, ChannelState.flagsLe, Channel.write_value,
          Channel.write_waker, Channel.read_value_unchecked]

/-- C10: the outcome of `send` depends only on RECEIVER_DROPPED: whenever it
is not set — whatever the other flags, including SENDER_SENT and
SENDER_DROPPED already set — the body and the complete call return `Ok(())`
and the value slot ends up holding the sent value (overwriting any earlier
content, so a second sender can write the slot a second time). -/
theorem send_ok_when_receiver_alive (ch : Channel V) (v : V)
    (h : ch.state.receiverDropped = false) :
    (Sender.send ch v).1 = .ok () ∧
    (Sender.send ch v).2.1.value = some v ∧
    (Sender.sendCall ch v).1 = .ok () ∧
    (Sender.sendCall ch v).2.1.value = some v := by
  obtain ⟨⟨rd, sd, ss, wr⟩, wk, vl⟩ := ch
  simp only at h
  subst h
  cases wr <;>
    simp [Sender.sendCall, Sender.send, Sender.drop, ChannelState.contains,
          ChannelState.insert, Channel.write_value]

/-- Witness for C10 at a concrete channel that has already seen a complete
`send(42)` call (SENDER_SENT and SENDER_DROPPED set): sending 7 again
succeeds and overwrites the slot. -/
theorem send_ok_when_receiver_alive_witness :
    sentChannel.state.receiverDropped = false ∧
    ((Sender.send sentChannel 7).1 = .ok () ∧
     (Sender.send sentChannel 7).2.1.value = some 7 ∧
     (Sender.sendCall sentChannel 7).1 = .ok () ∧
     (Sender.sendCall sentChannel 7).2.1.value = some 7) :=
  ⟨by decide, send_ok_when_receiver_alive sentChannel 7 (by decide)⟩

end Oneshot
